import Mathlib

/-
  Verification development for the Financial Document Analyzer repository.

  Strings are modelled as lists of characters (Str).  Python string
  operations used by the source (split, strip, lower, replace, slicing,
  substring containment, regular-expression scanning for the two fixed
  patterns) are embedded as executable Lean functions below.  The job
  lifecycle of main.py / celery_worker.py is embedded as explicit traces of
  committed database states.
-/

namespace FinDoc

abbrev Str := List Char

def nl : Char := '\n'

def sq : Char := Char.ofNat 39

/-- ASCII whitespace recognised by Python str.strip and by the regex
class for whitespace. -/
def isPySpace (c : Char) : Bool :=
  c = ' ' || c = '\t' || c = '\n' || c = '\r' || c = Char.ofNat 11 || c = Char.ofNat 12

def lstrip (s : Str) : Str := s.dropWhile isPySpace

def rstrip (s : Str) : Str := (s.reverse.dropWhile isPySpace).reverse

/-- Python str.strip(): remove leading and trailing whitespace. -/
def strip (s : Str) : Str := rstrip (lstrip s)

/-- Boolean test that pattern p occurs at the head of s. -/
def prefB : Str → Str → Bool
  | [], _ => true
  | _ :: _, [] => false
  | p :: ps, a :: l => (p = a) && prefB ps l

/-- Python substring containment (pat in s). -/
def containsSub (pat : Str) : Str → Bool
  | [] => pat.isEmpty
  | a :: rest => prefB pat (a :: rest) || containsSub pat rest

/-- Python s.split on the two-newline separator, scanning left to right
over non-overlapping occurrences. -/
def splitNN : Str → List Str
  | [] => [[]]
  | [a] => [[a]]
  | a :: b :: rest =>
    if a = nl ∧ b = nl then [] :: splitNN rest
    else
      match splitNN (b :: rest) with
      | [] => [[a]]
      | h :: t => (a :: h) :: t

/-- Python s.split on the single-newline separator. -/
def splitNL : Str → List Str
  | [] => [[]]
  | a :: rest =>
    if a = nl then [] :: splitNL rest
    else
      match splitNL rest with
      | [] => [[a]]
      | h :: t => (a :: h) :: t

/-- Python str.lower (ASCII inputs). -/
def lowerStr (s : Str) : Str := s.map Char.toLower

def dedupGo (seen : List Str) : List Str → List Str
  | [] => []
  | a :: rest => if seen.contains a then dedupGo seen rest else a :: dedupGo (a :: seen) rest

/-- Python list(dict.fromkeys(l)): deduplicate keeping first-seen order. -/
def dedupFirstSeen (l : List Str) : List Str := dedupGo [] l

/-- Python sep.join(parts). -/
def joinSep (sep : Str) : List Str → Str
  | [] => []
  | [x] => x
  | x :: xs => x ++ sep ++ joinSep sep xs

/-- Decimal rendering of a natural number, as Python str(n). -/
def natStr (n : Nat) : Str := (toString n).toList

/-- Case-insensitive match of pattern p at the head of s
(the effect of re.IGNORECASE on the literal alternatives). -/
def ciPrefix : Str → Str → Bool
  | [], _ => true
  | _ :: _, [] => false
  | p :: ps, a :: l => (Char.toLower p = Char.toLower a) && ciPrefix ps l

/-- One round of Python text.replace of three newlines by two:
replaces every non-overlapping occurrence, scanning left to right. -/
def replaceTriple : Str → Str
  | [] => []
  | [a] => [a]
  | [a, b] => [a, b]
  | a :: b :: c :: rest =>
    if a = nl ∧ b = nl ∧ c = nl then nl :: nl :: replaceTriple rest
    else a :: replaceTriple (b :: c :: rest)

/-- The loop condition of the collapse loop in tools.py. -/
def hasTriple (s : Str) : Bool := containsSub [nl, nl, nl] s

theorem replaceTriple_length_le : ∀ s : Str, (replaceTriple s).length ≤ s.length
  | [] => by simp [replaceTriple]
  | [a] => by simp [replaceTriple]
  | [a, b] => by simp [replaceTriple]
  | a :: b :: c :: rest => by
    simp only [replaceTriple]
    split
    · have h1 := replaceTriple_length_le rest
      simp only [List.length_cons]
      omega
    · have h1 := replaceTriple_length_le (b :: c :: rest)
      simp only [List.length_cons] at h1 ⊢
      omega

theorem hasTriple_tail {a b c : Char} {rest : Str}
    (hc : ¬(a = nl ∧ b = nl ∧ c = nl))
    (h : hasTriple (a :: b :: c :: rest) = true) : hasTriple (b :: c :: rest) = true := by
  simp only [hasTriple, containsSub, Bool.or_eq_true] at h ⊢
  rcases h with h | h
  · exfalso
    apply hc
    simp only [prefB, Bool.and_eq_true, decide_eq_true_eq] at h
    exact ⟨h.1.symm, h.2.1.symm, h.2.2.1.symm⟩
  · exact h

theorem replaceTriple_length_lt :
    ∀ s : Str, hasTriple s = true → (replaceTriple s).length < s.length
  | [], h => by simp [hasTriple, containsSub] at h
  | [a], h => by simp [hasTriple, containsSub, prefB] at h
  | [a, b], h => by simp [hasTriple, containsSub, prefB] at h
  | a :: b :: c :: rest, h => by
    simp only [replaceTriple]
    split
    · have h1 := replaceTriple_length_le rest
      simp only [List.length_cons]
      omega
    · next hc =>
      have hr := hasTriple_tail hc h
      have h1 := replaceTriple_length_lt (b :: c :: rest) hr
      simp only [List.length_cons] at h1 ⊢
      omega

/-- The body of the collapse loop of tools.py, with an explicit iteration
bound.  Each iteration strictly shrinks the text
(replaceTriple_length_lt), so a bound of length + 1 is never reached and
the fuel returns exactly the fixpoint the while loop computes
(collapseBlank_no_triple below). -/
def collapseBlankFuel : Nat → Str → Str
  | 0, s => s
  | fuel + 1, s => if hasTriple s then collapseBlankFuel fuel (replaceTriple s) else s

/-- The collapse loop of tools.py: while three consecutive newlines occur,
replace them by two. -/
def collapseBlank (s : Str) : Str := collapseBlankFuel (s.length + 1) s

theorem collapseBlankFuel_no_triple :
    ∀ (fuel : Nat) (s : Str), s.length < fuel → hasTriple (collapseBlankFuel fuel s) = false
  | 0, s, h => by omega
  | fuel + 1, s, h => by
    simp only [collapseBlankFuel]
    split
    · next ht =>
      have hlt := replaceTriple_length_lt s ht
      exact collapseBlankFuel_no_triple fuel (replaceTriple s) (by omega)
    · next ht => simpa using ht

theorem collapseBlank_no_triple (s : Str) : hasTriple (collapseBlank s) = false :=
  collapseBlankFuel_no_triple (s.length + 1) s (by omega)

/-- Message returned by extract_pdf_text when the path does not exist
(tools.py line 29). -/
def notFoundMsg (path : Str) : Str :=
  String.toList "Error: File not found at " ++ [sq] ++ path ++ [sq, '.']

/-- Message returned by extract_pdf_text when the binary cannot be parsed
(tools.py line 35). -/
def openErrMsg (e : Str) : Str := String.toList "Error opening PDF: " ++ e

/-- Sentinel returned when the stripped extraction result is empty
(tools.py line 47). -/
def emptySentinel : Str := String.toList "The PDF contained no extractable text."

/-- The state of the file at a path: either the binary cannot be parsed by
the PDF library, or it parses into a list of per-page texts. -/
inductive FileContent
  | unreadable (msg : Str)
  | pdf (pages : List Str)
  deriving DecidableEq

/-- tools.py extract_pdf_text.  The filesystem lookup result is passed in:
none models a missing path, some content a present file. -/
def extract_pdf_text (file : Option FileContent) (path : Str) : Str :=
  match file with
  | none => notFoundMsg path
  | some (.unreadable e) => openErrMsg e
  | some (.pdf pages) =>
    let full := (pages.map (fun p => collapseBlank p ++ [nl])).flatten
    if (strip full).isEmpty then emptySentinel else strip full

/-
  The two regular expressions of tools.py, embedded as scanners.
  The monetary pattern is a currency sign, one or more digits or commas, an
  optional dot, optional digits, optional whitespace, and an optional scale
  word, matched case-insensitively.  The percentage pattern is one or more
  digits, an optional dot, optional digits, optional whitespace, and a
  required percent sign.  Since everything after the mandatory part of each
  pattern is optional (money) or the match can only fail at the final
  required sign (percent), greedy scanning without backtracking agrees with
  the Python engine on these two patterns.
-/

def isMoneyChar (c : Char) : Bool := c.isDigit || c = ','

def moneySuffixes : List Str :=
  [String.toList "million", String.toList "billion", ['M'], ['B'], ['K']]

/-- Take the optional dot of the pattern. -/
def dotSplit (t : Str) : Str × Str :=
  match t with
  | '.' :: r => (['.'], r)
  | _ => ([], t)

/-- Match the monetary pattern at the head of s; returns the matched text
and the remaining input. -/
def moneyMatchAt (s : Str) : Option (Str × Str) :=
  match s with
  | [] => none
  | c :: t =>
    if c = '$' then
      let run1 := t.takeWhile isMoneyChar
      let t1 := t.dropWhile isMoneyChar
      if run1.isEmpty then none
      else
        let d := dotSplit t1
        let digs := d.2.takeWhile Char.isDigit
        let t3 := d.2.dropWhile Char.isDigit
        let sp := t3.takeWhile isPySpace
        let t4 := t3.dropWhile isPySpace
        let sfxLen := ((moneySuffixes.find? (fun w => ciPrefix w t4)).getD []).length
        some ('$' :: run1 ++ d.1 ++ digs ++ sp ++ t4.take sfxLen, t4.drop sfxLen)
    else none

/-- Match the percentage pattern at the head of s. -/
def pctMatchAt (s : Str) : Option (Str × Str) :=
  let d1 := s.takeWhile Char.isDigit
  let t1 := s.dropWhile Char.isDigit
  if d1.isEmpty then none
  else
    let d := dotSplit t1
    let digs := d.2.takeWhile Char.isDigit
    let t3 := d.2.dropWhile Char.isDigit
    let sp := t3.takeWhile isPySpace
    let t4 := t3.dropWhile isPySpace
    match t4 with
    | '%' :: t5 => some (d1 ++ d.1 ++ digs ++ sp ++ ['%'], t5)
    | _ => none

theorem dotSplit_length_le (t : Str) : (dotSplit t).2.length ≤ t.length := by
  match t with
  | [] => simp [dotSplit]
  | c :: r =>
    by_cases hc : c = '.'
    · subst hc; simp [dotSplit]
    · have : dotSplit (c :: r) = ([], c :: r) := by
        unfold dotSplit
        split
        · next heq => rw [List.cons.injEq] at heq; exact absurd heq.1 hc
        · rfl
      rw [this]

theorem dotSplit_sublist (t : Str) : (dotSplit t).2.Sublist t := by
  match t with
  | [] => simp [dotSplit]
  | c :: r =>
    unfold dotSplit
    split
    · next heq =>
      rw [List.cons.injEq] at heq
      rw [heq.2]
      exact List.sublist_cons_self _ _
    · exact List.Sublist.refl _

theorem moneyMatchAt_rest_lt {s m r : Str} (h : moneyMatchAt s = some (m, r)) :
    r.length < s.length := by
  match s with
  | [] => simp [moneyMatchAt] at h
  | c :: t =>
    simp only [moneyMatchAt] at h
    split at h
    · split at h
      · simp at h
      · simp only [Option.some.injEq, Prod.mk.injEq] at h
        have hsub : r.Sublist t := by
          rw [← h.2]
          exact (List.drop_sublist _ _).trans ((List.dropWhile_sublist _).trans
            ((List.dropWhile_sublist _).trans ((dotSplit_sublist _).trans
              (List.dropWhile_sublist _))))
        have := hsub.length_le
        simp only [List.length_cons]
        omega
    · simp at h

theorem pctMatchAt_rest_lt {s m r : Str} (h : pctMatchAt s = some (m, r)) :
    r.length < s.length := by
  simp only [pctMatchAt] at h
  split at h
  · simp at h
  · split at h
    · next t5 heq =>
      simp only [Option.some.injEq, Prod.mk.injEq] at h
      have hsub : ('%' :: t5).Sublist s := by
        rw [← heq]
        exact (List.dropWhile_sublist _).trans ((List.dropWhile_sublist _).trans
          ((dotSplit_sublist _).trans (List.dropWhile_sublist _)))
      have := hsub.length_le
      simp only [List.length_cons] at this
      rw [← h.2]
      omega
    · simp at h

/-- Python re.findall for the monetary pattern (with IGNORECASE), scanning
left to right, continuing after each non-overlapping match.  Each scanner
step either consumes a non-empty match (moneyMatchAt_rest_lt) or advances
one character, so fuel length + 1 is never exhausted. -/
def moneyFindallFuel : Nat → Str → List Str
  | 0, _ => []
  | _ + 1, [] => []
  | fuel + 1, a :: rest =>
    match moneyMatchAt (a :: rest) with
    | some (m, r) => m :: moneyFindallFuel fuel r
    | none => moneyFindallFuel fuel rest

def moneyFindall (s : Str) : List Str := moneyFindallFuel (s.length + 1) s

/-- Python re.findall for the percentage pattern. -/
def pctFindallFuel : Nat → Str → List Str
  | 0, _ => []
  | _ + 1, [] => []
  | fuel + 1, a :: rest =>
    match pctMatchAt (a :: rest) with
    | some (m, r) => m :: pctFindallFuel fuel r
    | none => pctFindallFuel fuel rest

def pctFindall (s : Str) : List Str := pctFindallFuel (s.length + 1) s

/-- Python re.search success for the monetary pattern. -/
def moneySearch (s : Str) : Bool := !(moneyFindall s).isEmpty

/-- Python re.search success for the percentage pattern. -/
def pctSearch (s : Str) : Bool := !(pctFindall s).isEmpty

/-
  Metric Extraction Engine: analyze_investment_data in tools.py.
-/

/-- The fixed keyword vocabulary of analyze_investment_data. -/
def metric_keywords : List Str :=
  [String.toList "revenue", String.toList "net income", String.toList "gross profit",
   String.toList "operating income", String.toList "ebitda", String.toList "eps",
   String.toList "earnings per share", String.toList "free cash flow",
   String.toList "operating cash flow", String.toList "total assets",
   String.toList "total liabilities", String.toList "shareholders equity",
   String.toList "debt", String.toList "margin", String.toList "growth",
   String.toList "year-over-year", String.toList "quarter", String.toList "guidance",
   String.toList "outlook", String.toList "dividend", String.toList "buyback",
   String.toList "repurchase"]

/-- Paragraph splitting of analyze_investment_data: blank-line split with
stripping, falling back to single-line split keeping stripped lines longer
than 30 characters when fewer than 5 paragraphs result. -/
def metricParagraphs (text : Str) : List Str :=
  let ps := ((splitNN text).map strip).filter (fun p => !p.isEmpty)
  if ps.length < 5 then
    ((splitNL text).map strip).filter (fun p => 30 < p.length)
  else ps

/-- The keywords of the vocabulary contained in the lowercased paragraph. -/
def matchedKeywords (para : Str) : List Str :=
  metric_keywords.filter (fun kw => containsSub kw (lowerStr para))

/-- The metric_sections list of analyze_investment_data: a paragraph
contributes its first 600 characters and its matched keywords when at least
one keyword and at least one monetary or percentage match occur in it. -/
def metric_sections (text : Str) : List (Str × List Str) :=
  (metricParagraphs text).filterMap (fun para =>
    let matched := matchedKeywords para
    if !matched.isEmpty && (moneySearch para || pctSearch para) then
      some (para.take 600, matched)
    else none)

/-- unique_amounts of analyze_investment_data: deduplicated monetary
matches over the whole text, capped at 20. -/
def unique_amounts (text : Str) : List Str :=
  (dedupFirstSeen (moneyFindall text)).take 20

/-- unique_pcts of analyze_investment_data: deduplicated percentage
matches over the whole text, capped at 15. -/
def unique_pcts (text : Str) : List Str :=
  (dedupFirstSeen (pctFindall text)).take 15

/-- The sections actually reported: the first 10 metric sections. -/
def reported_sections (text : Str) : List (Str × List Str) :=
  (metric_sections text).take 10

/-- The output list built by analyze_investment_data before joining. -/
def investmentOutputLines (text : Str) : List Str :=
  let base := [String.toList "=== Financial Metrics Extraction ===", []]
  let money_matches := moneyFindall text
  let moneyBlock :=
    if !money_matches.isEmpty then
      (String.toList "Monetary figures found (" ++ natStr money_matches.length
        ++ String.toList " total):")
        :: (unique_amounts text).map (fun amt => String.toList "  • " ++ strip amt)
        ++ [[]]
    else []
  let pct_matches := pctFindall text
  let pctBlock :=
    if !pct_matches.isEmpty then
      (String.toList "Percentage figures found (" ++ natStr pct_matches.length
        ++ String.toList " total):")
        :: (unique_pcts text).map (fun p => String.toList "  • " ++ strip p)
        ++ [[]]
    else []
  let sectionBlock :=
    if !(metric_sections text).isEmpty then
      (String.toList "Key financial sections (" ++ natStr (metric_sections text).length
        ++ String.toList " found):")
        :: ((reported_sections text).map (fun e =>
              [String.toList "  Keywords: " ++ joinSep (String.toList ", ") e.2,
               String.toList "  Text: \"" ++ e.1 ++ [Char.ofNat 34],
               []])).flatten
    else []
  let output := base ++ moneyBlock ++ pctBlock ++ sectionBlock
  if output.length ≤ 2 then
    output ++ [String.toList "No structured financial figures detected.",
               String.toList "The agent should review the full document text directly."]
  else
    output ++ [String.toList "The agent should now use these extracted figures for investment analysis."]

/-- tools.py analyze_investment_data. -/
def analyze_investment_data (text : Str) : Str :=
  if text.isEmpty || (strip text).isEmpty then
    String.toList "No financial data provided for analysis."
  else joinSep [nl] (investmentOutputLines text)

/-
  Risk Extraction Engine: assess_risk_factors in tools.py.
-/

/-- The five fixed risk categories with their keyword sets. -/
def risk_categories : List (Str × List Str) :=
  [(String.toList "Credit & Debt Risk",
    [String.toList "debt", String.toList "default", String.toList "credit",
     String.toList "leverage", String.toList "borrowing", String.toList "interest expense",
     String.toList "covenant", String.toList "downgrade"]),
   (String.toList "Market & Volatility Risk",
    [String.toList "volatility", String.toList "market risk", String.toList "currency",
     String.toList "exchange rate", String.toList "interest rate", String.toList "commodity",
     String.toList "inflation"]),
   (String.toList "Legal & Regulatory Risk",
    [String.toList "litigation", String.toList "regulatory", String.toList "compliance",
     String.toList "lawsuit", String.toList "investigation", String.toList "penalty",
     String.toList "sanction", String.toList "SEC"]),
   (String.toList "Operational Risk",
    [String.toList "restructuring", String.toList "impairment", String.toList "write-off",
     String.toList "supply chain", String.toList "cybersecurity", String.toList "disruption",
     String.toList "workforce"]),
   (String.toList "Financial Health Concerns",
    [String.toList "decline", String.toList "loss", String.toList "adverse",
     String.toList "uncertainty", String.toList "contingent", String.toList "liability",
     String.toList "going concern", String.toList "liquidity risk"])]

/-- Paragraph splitting of assess_risk_factors: same as the metric variant
but the single-line fallback keeps stripped lines longer than 50
characters. -/
def riskParagraphs (text : Str) : List Str :=
  let ps := ((splitNN text).map strip).filter (fun p => !p.isEmpty)
  if ps.length < 5 then
    ((splitNL text).map strip).filter (fun p => 50 < p.length)
  else ps

/-- The relevant list built for one category of assess_risk_factors:
each paragraph with at least one keyword hit contributes its first 500
characters and the matched terms. -/
def riskRelevant (keywords : List Str) (paragraphs : List Str) : List (Str × List Str) :=
  paragraphs.filterMap (fun para =>
    let matched := keywords.filter (fun kw => containsSub kw (lowerStr para))
    if !matched.isEmpty then some (para.take 500, matched) else none)

/-- The output list built by assess_risk_factors before joining. -/
def riskOutputLines (text : Str) : List Str :=
  let paragraphs := riskParagraphs text
  let base := [String.toList "=== Risk-Relevant Sections Extracted for Analysis ===" ++ [nl]]
  let step := risk_categories.foldl (fun (acc : List Str × Nat) cat =>
    let relevant := riskRelevant cat.2 paragraphs
    if !relevant.isEmpty then
      (acc.1
        ++ [[nl] ++ String.toList "── " ++ cat.1 ++ String.toList " ("
              ++ natStr relevant.length ++ String.toList " section(s)) ──"]
        ++ ((relevant.take 5).map (fun e =>
              [String.toList "  Indicators: " ++ joinSep (String.toList ", ") e.2,
               String.toList "  Text: \"" ++ e.1 ++ [Char.ofNat 34],
               []])).flatten,
       acc.2 + relevant.length)
    else acc) (base, 0)
  if step.2 = 0 then
    step.1 ++ [String.toList "No explicit risk-related sections detected in the document.",
               String.toList "The agent should review the full document for implicit risks."]
  else
    step.1 ++ [[nl] ++ String.toList "Total: " ++ natStr step.2
                 ++ String.toList " risk-relevant sections found across "
                 ++ natStr risk_categories.length ++ String.toList " categories.",
               String.toList "The agent should now perform qualitative analysis on these extracts."]

/-- tools.py assess_risk_factors. -/
def assess_risk_factors (text : Str) : Str :=
  if text.isEmpty || (strip text).isEmpty then
    String.toList "No financial data provided for risk assessment."
  else joinSep [nl] (riskOutputLines text)

/-
  Job store and execution paths: database.py, main.py, celery_worker.py.
  Each execution path is embedded as the list of database states it
  commits, in commit order, parameterised by the outcome of the opaque
  crew pipeline and of the artifact write.  Timestamps are natural
  numbers.
-/

/-- database.py AnalysisStatus. -/
inductive AnalysisStatus
  | pending
  | processing
  | completed
  | failed
  deriving DecidableEq

/-- database.py AnalysisResult rows (the fields the core mutates). -/
structure AnalysisResult where
  id : Str
  filename : Str
  query : Str
  status : AnalysisStatus
  result : Option Str
  error : Option Str
  completed_at : Option Nat
  deriving DecidableEq

/-- The fixed fallback query string of main.py. -/
def fallbackQuery : Str :=
  String.toList "Analyze this financial document for investment insights"

/-- The blank-query test of main.py: not query or query.strip() == "". -/
def isBlankQuery (q : Str) : Bool := q.isEmpty || (strip q).isEmpty

/-- The query after the fallback substitution of main.py. -/
def defaultedQuery (q : Str) : Str := if isBlankQuery q then fallbackQuery else q

/-- The outcome of running the opaque crew pipeline. -/
inductive CrewOutcome
  | ok (response : Str)
  | exn (err : Str)
  deriving DecidableEq

/-- The record committed at creation time on the immediate path
(main.py analyze_document, before the blank-query substitution). -/
def newImmediateRecord (id filename rawQuery : Str) : AnalysisResult :=
  { id := id, filename := filename, query := rawQuery, status := .pending,
    result := none, error := none, completed_at := none }

/-- The query string passed to run_crew on the immediate path. -/
def immediatePipelineQuery (rawQuery : Str) : Str := strip (defaultedQuery rawQuery)

/-- The committed database states of the immediate path
(main.py analyze_document), in commit order.  sizeOk is the upload size
check; crew the pipeline outcome; saveOk whether the artifact write
succeeds, with saveErr the exception text when it does not. -/
def immediateTrace (id filename rawQuery : Str) (sizeOk : Bool)
    (crew : CrewOutcome) (saveOk : Bool) (saveErr : Str) (now : Nat) :
    List AnalysisResult :=
  let r0 := newImmediateRecord id filename rawQuery
  if !sizeOk then [r0]
  else
    let r1 := { r0 with status := .processing }
    match crew with
    | .ok response =>
      let r2 := { r1 with
        status := .completed, result := some response, completed_at := some now }
      if saveOk then [r0, r1, r2]
      else [r0, r1, r2, { r2 with status := .failed, error := some saveErr }]
    | .exn e => [r0, r1, { r1 with status := .failed, error := some e }]

/-
  Queued path: analyze_document_async in main.py enqueues
  analyze_document_task of celery_worker.py.  The celery driver semantics
  for bind=True, max_retries=2 with self.retry are: attempt k runs with
  self.request.retries = k; a raised retry re-runs the task with retries
  = k + 1 as long as k < max_retries, otherwise the task stops.
-/

/-- max_retries=2 from the task decorator in celery_worker.py. -/
def maxRetries : Nat := 2

/-- countdown=30 * (self.request.retries + 1) in celery_worker.py. -/
def retryCountdown (retries : Nat) : Nat := 30 * (retries + 1)

/-- The outcome of one queued attempt: the crew succeeds and the artifact
write succeeds, the crew succeeds but the artifact write raises, or the
crew raises. -/
inductive AttemptOutcome
  | success (response : Str)
  | artifactFail (response : Str) (err : Str)
  | crewFail (err : Str)
  deriving DecidableEq

def isFailureOutcome : AttemptOutcome → Bool
  | .success _ => false
  | _ => true

/-- Worker-side state threaded between attempts: the current database row
and whether the uploaded temporary file is still on disk. -/
structure WorkerState where
  record : AnalysisResult
  fileOnDisk : Bool
  deriving DecidableEq

/-- What one attempt of analyze_document_task produced: its committed
database states in order, the text its extraction step returned, and
whether it returned normally. -/
structure AttemptLog where
  commits : List AnalysisResult
  docText : Str
  succeeded : Bool
  deriving DecidableEq

/-- One attempt of analyze_document_task: commit PROCESSING, extract the
document (observing whether the temporary file still exists), run the
crew; on success commit COMPLETED with result and completed_at and write
the artifact (whose failure commits FAILED with the exception text); on
crew failure commit FAILED with the exception text.  The finally block
removes the temporary file on every exit. -/
def runAttempt (content : FileContent) (path : Str) (now : Nat)
    (o : AttemptOutcome) (st : WorkerState) : AttemptLog × WorkerState :=
  let doc := extract_pdf_text (if st.fileOnDisk then some content else none) path
  let r1 := { st.record with status := AnalysisStatus.processing }
  match o with
  | .success response =>
    let r2 := { r1 with
      status := AnalysisStatus.completed, result := some response, completed_at := some now }
    (⟨[r1, r2], doc, true⟩, ⟨r2, false⟩)
  | .artifactFail response err =>
    let r2 := { r1 with
      status := AnalysisStatus.completed, result := some response, completed_at := some now }
    let r3 := { r2 with status := AnalysisStatus.failed, error := some err }
    (⟨[r1, r2, r3], doc, false⟩, ⟨r3, false⟩)
  | .crewFail err =>
    let r2 := { r1 with status := AnalysisStatus.failed, error := some err }
    (⟨[r1, r2], doc, false⟩, ⟨r2, false⟩)

/-- Everything externally observable about one queued job execution:
the committed database states in order (creation included), the text each
attempt's extraction step returned, the retry countdowns that were
scheduled, and whether the temporary file remains on disk at the end. -/
structure QueuedRun where
  commits : List AnalysisResult
  docs : List Str
  countdowns : List Nat
  fileOnDisk : Bool
  deriving DecidableEq

/-- The celery retry driver: run attempts k, k+1, ... until one succeeds
or the retry budget is exhausted.  Fuel bounds the recursion; it is
instantiated with maxRetries + 1, which the guard k < maxRetries never
exceeds. -/
def queuedGo (content : FileContent) (path : Str) (now : Nat)
    (outcomes : Nat → AttemptOutcome) : Nat → Nat → WorkerState → QueuedRun
  | 0, _, st => ⟨[], [], [], st.fileOnDisk⟩
  | fuel + 1, k, st =>
    let step := runAttempt content path now (outcomes k) st
    if step.1.succeeded then ⟨step.1.commits, [step.1.docText], [], step.2.fileOnDisk⟩
    else if k < maxRetries then
      let rest := queuedGo content path now outcomes fuel (k + 1) step.2
      ⟨step.1.commits ++ rest.commits, step.1.docText :: rest.docs,
       retryCountdown k :: rest.countdowns, rest.fileOnDisk⟩
    else ⟨step.1.commits, [step.1.docText], [], step.2.fileOnDisk⟩

/-- The record committed at creation time on the queued path (main.py
analyze_document_async: the blank-query substitution and strip happen
before the row is created). -/
def newQueuedRecord (id filename rawQuery : Str) : AnalysisResult :=
  { id := id, filename := filename, query := strip (defaultedQuery rawQuery),
    status := .pending, result := none, error := none, completed_at := none }

/-- The query string the queued task receives from delay. -/
def queuedTaskQuery (rawQuery : Str) : Str := strip (defaultedQuery rawQuery)

/-- A full queued execution: row creation followed by the celery attempts.
The temporary file is on disk when the first attempt starts. -/
def queuedRun (id filename rawQuery : Str) (content : FileContent) (path : Str)
    (now : Nat) (outcomes : Nat → AttemptOutcome) : QueuedRun :=
  let r0 := newQueuedRecord id filename rawQuery
  let run := queuedGo content path now outcomes (maxRetries + 1) 0 ⟨r0, true⟩
  ⟨r0 :: run.commits, run.docs, run.countdowns, run.fileOnDisk⟩

/-
  Artifact writer: save_analysis_output in main.py and the inline artifact
  write in celery_worker.py.
-/

/-- config.py OUTPUTS_DIR default. -/
def OUTPUTS_DIR : Str := String.toList "outputs"

/-- Index of the last occurrence of a character. -/
def rfindIdx (c : Char) (s : Str) : Option Nat :=
  ((List.range s.length).filter (fun i => s.get? i = some c)).getLast?

/-- os.path.splitext stem: the name up to the last dot, provided that dot
lies after the last path separator and some earlier character of the base
name is not a dot. -/
def splitextStem (p : Str) : Str :=
  let sepIdx : Int := match rfindIdx '/' p with | some i => (i : Int) | none => -1
  let dotIdx : Int := match rfindIdx '.' p with | some i => (i : Int) | none => -1
  if dotIdx > sepIdx
      && (List.range p.length).any (fun i =>
            decide (sepIdx < (i : Int)) && decide ((i : Int) < dotIdx)
              && !(p.get? i = some '.')) then
    p.take dotIdx.toNat
  else p

/-- Python s.replace of spaces by underscores. -/
def replaceSpaces (s : Str) : Str := s.map (fun c => if c = ' ' then '_' else c)

/-- safe_name of main.py save_analysis_output. -/
def mainSafeName (filename : Str) : Str := (replaceSpaces (splitextStem filename)).take 50

/-- The artifact path derived in main.py save_analysis_output. -/
def save_analysis_output_path (analysis_id filename : Str) : Str :=
  OUTPUTS_DIR ++ ['/'] ++ mainSafeName filename ++ ['_'] ++ analysis_id.take 8
    ++ String.toList ".txt"

/-- The bytes written by main.py save_analysis_output. -/
def save_analysis_output_content (analysis_id filename query result ts : Str) : Str :=
  String.toList "Financial Document Analysis Report" ++ [nl]
  ++ String.toList "Analysis ID : " ++ analysis_id ++ [nl]
  ++ String.toList "Source File : " ++ filename ++ [nl]
  ++ String.toList "Query       : " ++ query ++ [nl]
  ++ String.toList "Generated   : " ++ ts ++ [nl]
  ++ [nl, nl]
  ++ result

/-- safe_name of the inline artifact write in celery_worker.py. -/
def workerSafeName (filename : Str) : Str := (replaceSpaces (splitextStem filename)).take 50

/-- The artifact path derived in celery_worker.py. -/
def worker_output_path (analysis_id filename : Str) : Str :=
  OUTPUTS_DIR ++ ['/'] ++ workerSafeName filename ++ ['_'] ++ analysis_id.take 8
    ++ String.toList ".txt"

/-- The bytes written by the inline artifact write in celery_worker.py
(note the single space on the separator line). -/
def worker_output_content (analysis_id filename query result ts : Str) : Str :=
  String.toList "Financial Document Analysis Report" ++ [nl]
  ++ String.toList "Analysis ID : " ++ analysis_id ++ [nl]
  ++ String.toList "Source File : " ++ filename ++ [nl]
  ++ String.toList "Query       : " ++ query ++ [nl]
  ++ String.toList "Generated   : " ++ ts ++ [nl]
  ++ [nl, ' ', nl]
  ++ result

/-
  Invariant predicates and named concrete executions used below.
-/

/-- The state-machine invariant claimed by the spec, as a decidable
predicate on rows: COMPLETED iff result set and error null, FAILED iff
error set and result null, completed_at set iff terminal. -/
def specClaimInvariant (r : AnalysisResult) : Bool :=
  (decide (r.status = AnalysisStatus.completed) == (r.result.isSome && r.error.isNone))
  && (decide (r.status = AnalysisStatus.failed) == (r.error.isSome && r.result.isNone))
  && (r.completed_at.isSome == (decide (r.status = AnalysisStatus.completed)
        || decide (r.status = AnalysisStatus.failed)))

/-- The part of the claimed invariant the code actually maintains on every
committed row. -/
def RecordInvariant (r : AnalysisResult) : Prop :=
  (r.status = AnalysisStatus.completed → r.result.isSome = true ∧ r.completed_at.isSome = true)
  ∧ (r.status = AnalysisStatus.failed → r.error.isSome = true)

/-- A concrete queued execution in which every attempt fails in the crew. -/
def allFailRun : QueuedRun :=
  queuedRun (String.toList "id") (String.toList "f.pdf") []
    (.pdf [String.toList "x"]) (String.toList "data/f.pdf") 0
    (fun _ => .crewFail (String.toList "boom"))

/-- A concrete queued execution whose first attempt fails in the crew and
whose first retry succeeds. -/
def retrySuccessRun : QueuedRun :=
  queuedRun (String.toList "id") (String.toList "f.pdf") []
    (.pdf [String.toList "x"]) (String.toList "data/f.pdf") 0
    (fun k => if k = 0 then .crewFail (String.toList "x")
              else .success (String.toList "report"))

/-
  Helper lemmas.
-/

theorem inv_update_processing (i f q : Str) (res err : Option Str) (ca : Option Nat) :
    RecordInvariant { id := i, filename := f, query := q, status := AnalysisStatus.processing, result := res, error := err, completed_at := ca } := by
  constructor <;> intro h <;> simp_all

theorem inv_update_completed (i f q : Str) (response : Str) (err : Option Str) (now : Nat) :
    RecordInvariant { id := i, filename := f, query := q, status := AnalysisStatus.completed, result := some response, error := err, completed_at := some now } := by
  constructor <;> intro h <;> simp_all

theorem inv_update_failed (i f q : Str) (res : Option Str) (e : Str) (ca : Option Nat) :
    RecordInvariant { id := i, filename := f, query := q, status := AnalysisStatus.failed, result := res, error := some e, completed_at := ca } := by
  constructor <;> intro h <;> simp_all

theorem inv_pending_row (i f q : Str) :
    RecordInvariant { id := i, filename := f, query := q, status := AnalysisStatus.pending, result := none, error := none, completed_at := none } := by
  constructor <;> intro h <;> simp_all

theorem runAttempt_inv (content : FileContent) (path : Str) (now : Nat)
    (o : AttemptOutcome) (st : WorkerState) :
    ∀ r ∈ (runAttempt content path now o st).1.commits, RecordInvariant r := by
  intro r hr
  cases o with
  | success response =>
    simp only [runAttempt, List.mem_cons, List.not_mem_nil, or_false] at hr
    rcases hr with rfl | rfl
    · exact inv_update_processing _ _ _ _ _ _
    · exact inv_update_completed _ _ _ _ _ _
  | artifactFail response err =>
    simp only [runAttempt, List.mem_cons, List.not_mem_nil, or_false] at hr
    rcases hr with rfl | rfl | rfl
    · exact inv_update_processing _ _ _ _ _ _
    · exact inv_update_completed _ _ _ _ _ _
    · exact inv_update_failed _ _ _ _ _ _
  | crewFail err =>
    simp only [runAttempt, List.mem_cons, List.not_mem_nil, or_false] at hr
    rcases hr with rfl | rfl
    · exact inv_update_processing _ _ _ _ _ _
    · exact inv_update_failed _ _ _ _ _ _

theorem queuedGo_inv (content : FileContent) (path : Str) (now : Nat)
    (outcomes : Nat → AttemptOutcome) :
    ∀ (fuel k : Nat) (st : WorkerState),
      ∀ r ∈ (queuedGo content path now outcomes fuel k st).commits, RecordInvariant r := by
  intro fuel
  induction fuel with
  | zero => intro k st r hr; simp [queuedGo] at hr
  | succ n ih =>
    intro k st r hr
    simp only [queuedGo] at hr
    split at hr
    · exact runAttempt_inv content path now (outcomes k) st r hr
    · split at hr
      · simp only [List.mem_append] at hr
        rcases hr with hr | hr
        · exact runAttempt_inv content path now (outcomes k) st r hr
        · exact ih (k + 1) _ r hr
      · exact runAttempt_inv content path now (outcomes k) st r hr

theorem immediateTrace_inv (id filename rawQuery saveErr : Str) (sizeOk saveOk : Bool)
    (crew : CrewOutcome) (now : Nat) :
    ∀ r ∈ immediateTrace id filename rawQuery sizeOk crew saveOk saveErr now,
      RecordInvariant r := by
  intro r hr
  cases sizeOk with
  | false =>
    simp only [immediateTrace, newImmediateRecord] at hr
    simp at hr
    subst hr
    exact inv_pending_row _ _ _
  | true =>
    cases crew with
    | ok response =>
      cases saveOk with
      | true =>
        simp only [immediateTrace, newImmediateRecord] at hr
        simp at hr
        rcases hr with rfl | rfl | rfl
        · exact inv_pending_row _ _ _
        · exact inv_update_processing _ _ _ _ _ _
        · exact inv_update_completed _ _ _ _ _ _
      | false =>
        simp only [immediateTrace, newImmediateRecord] at hr
        simp at hr
        rcases hr with rfl | rfl | rfl | rfl
        · exact inv_pending_row _ _ _
        · exact inv_update_processing _ _ _ _ _ _
        · exact inv_update_completed _ _ _ _ _ _
        · exact inv_update_failed _ _ _ _ _ _
    | exn e =>
      simp only [immediateTrace, newImmediateRecord] at hr
      simp at hr
      rcases hr with rfl | rfl | rfl
      · exact inv_pending_row _ _ _
      · exact inv_update_processing _ _ _ _ _ _
      · exact inv_update_failed _ _ _ _ _ _

theorem queuedRun_inv (id filename rawQuery : Str) (content : FileContent) (path : Str)
    (now : Nat) (outcomes : Nat → AttemptOutcome) :
    ∀ r ∈ (queuedRun id filename rawQuery content path now outcomes).commits,
      RecordInvariant r := by
  intro r hr
  simp only [queuedRun, List.mem_cons] at hr
  rcases hr with rfl | hr
  · exact inv_pending_row _ _ _
  · exact queuedGo_inv content path now outcomes _ _ _ r hr

/-
  Claim theorems.
-/

/-- C1, counterexample to the claim as stated: on the immediate path a
crew failure commits a FAILED row whose completed_at is still null, so
completed_at is not set exactly on the terminal statuses. -/
theorem C1_counterexample :
    ∃ r ∈ immediateTrace (String.toList "id") (String.toList "f.pdf") [] true
        (CrewOutcome.exn (String.toList "boom")) true [] 0,
      specClaimInvariant r = false := by decide

/-- C1 (amended): on every committed row of either execution path,
COMPLETED implies result and completed_at are set, and FAILED implies
error is set; the claimed biconditionals do not hold (a FAILED row can
lack completed_at, and rows can retain result or error values from
earlier attempts). -/
theorem C1_state_machine_invariant (id filename rawQuery saveErr path : Str)
    (sizeOk saveOk : Bool) (crew : CrewOutcome) (content : FileContent) (now : Nat)
    (outcomes : Nat → AttemptOutcome) :
    (∀ r ∈ immediateTrace id filename rawQuery sizeOk crew saveOk saveErr now,
        RecordInvariant r)
    ∧ (∀ r ∈ (queuedRun id filename rawQuery content path now outcomes).commits,
        RecordInvariant r) :=
  ⟨immediateTrace_inv id filename rawQuery saveErr sizeOk saveOk crew now,
   queuedRun_inv id filename rawQuery content path now outcomes⟩

/-- C1 witness: the amended invariant instantiated on the first committed
row of a concrete immediate-path execution. -/
theorem C1_state_machine_invariant_witness :
    RecordInvariant { id := String.toList "id", filename := String.toList "f.pdf", query := [], status := AnalysisStatus.pending, result := none, error := none, completed_at := none } :=
  (C1_state_machine_invariant (String.toList "id") (String.toList "f.pdf") [] [] []
    true true (CrewOutcome.ok []) (FileContent.pdf []) 0
    (fun _ => AttemptOutcome.crewFail [])).1 _ (by decide)

/-- A queued execution whose three attempts all fail in the crew, written
out state by state. -/
theorem queuedRun_allfail_eq (id filename rawQuery path : Str) (content : FileContent)
    (now : Nat) (outcomes : Nat → AttemptOutcome) (e0 e1 e2 : Str)
    (h0 : outcomes 0 = .crewFail e0) (h1 : outcomes 1 = .crewFail e1)
    (h2 : outcomes 2 = .crewFail e2) :
    queuedRun id filename rawQuery content path now outcomes =
      ⟨[{ id := id, filename := filename, query := strip (defaultedQuery rawQuery), status := AnalysisStatus.pending, result := none, error := none, completed_at := none },
        { id := id, filename := filename, query := strip (defaultedQuery rawQuery), status := AnalysisStatus.processing, result := none, error := none, completed_at := none },
        { id := id, filename := filename, query := strip (defaultedQuery rawQuery), status := AnalysisStatus.failed, result := none, error := some e0, completed_at := none },
        { id := id, filename := filename, query := strip (defaultedQuery rawQuery), status := AnalysisStatus.processing, result := none, error := some e0, completed_at := none },
        { id := id, filename := filename, query := strip (defaultedQuery rawQuery), status := AnalysisStatus.failed, result := none, error := some e1, completed_at := none },
        { id := id, filename := filename, query := strip (defaultedQuery rawQuery), status := AnalysisStatus.processing, result := none, error := some e1, completed_at := none },
        { id := id, filename := filename, query := strip (defaultedQuery rawQuery), status := AnalysisStatus.failed, result := none, error := some e2, completed_at := none }],
       [extract_pdf_text (some content) path, notFoundMsg path, notFoundMsg path],
       [30, 60], false⟩ := by
  simp [queuedRun, queuedGo, runAttempt, h0, h1, h2, maxRetries, newQueuedRecord,
    retryCountdown, extract_pdf_text]

/-- C2, counterexample to the claim as stated: the queued path commits
FAILED and then, on retry, commits PROCESSING for the same job, an
externally visible FAILED to PROCESSING transition. -/
theorem C2_counterexample :
    ∃ i, (allFailRun.commits.map AnalysisResult.status)[i]? = some AnalysisStatus.failed
      ∧ (allFailRun.commits.map AnalysisResult.status)[i + 1]?
          = some AnalysisStatus.processing :=
  ⟨2, by decide, by decide⟩

/-- C2 (amended): a queued job whose attempts all fail commits the status
sequence PENDING, then PROCESSING and FAILED for each of the three
attempts; every retry is therefore externally visible as a FAILED to
PROCESSING transition of the same job, FAILED is committed before each
retry rather than only after the budget is exhausted, and after the third
attempt FAILED is terminal (no further commit follows it). -/
theorem C2_status_transitions (id filename rawQuery path : Str)
    (content : FileContent) (now : Nat) (outcomes : Nat → AttemptOutcome) (e0 e1 e2 : Str)
    (h0 : outcomes 0 = .crewFail e0) (h1 : outcomes 1 = .crewFail e1)
    (h2 : outcomes 2 = .crewFail e2) :
    (queuedRun id filename rawQuery content path now outcomes).commits.map
        AnalysisResult.status
      = [AnalysisStatus.pending, AnalysisStatus.processing, AnalysisStatus.failed,
         AnalysisStatus.processing, AnalysisStatus.failed, AnalysisStatus.processing,
         AnalysisStatus.failed] := by
  rw [queuedRun_allfail_eq id filename rawQuery path content now outcomes e0 e1 e2 h0 h1 h2]
  rfl

/-- C2 witness: the amended status sequence on a concrete all-failing
queued execution. -/
theorem C2_status_transitions_witness :
    ((fun _ : Nat => AttemptOutcome.crewFail (String.toList "boom")) 0
        = AttemptOutcome.crewFail (String.toList "boom"))
    ∧ allFailRun.commits.map AnalysisResult.status
        = [AnalysisStatus.pending, AnalysisStatus.processing, AnalysisStatus.failed,
           AnalysisStatus.processing, AnalysisStatus.failed, AnalysisStatus.processing,
           AnalysisStatus.failed] :=
  ⟨rfl, C2_status_transitions (String.toList "id") (String.toList "f.pdf") []
    (String.toList "data/f.pdf") (FileContent.pdf [String.toList "x"]) 0
    (fun _ => AttemptOutcome.crewFail (String.toList "boom"))
    (String.toList "boom") (String.toList "boom") (String.toList "boom") rfl rfl rfl⟩

/-- C4 (confirmed): a queued job whose crew fails on all attempts makes
exactly max_retries + 1 = 3 attempts (one extraction per attempt), the two
retries are scheduled with countdowns 30 and 60 seconds, and the final
committed row is FAILED with the last attempt error recorded verbatim. -/
theorem C4_retry_bound (id filename rawQuery path : Str)
    (content : FileContent) (now : Nat) (outcomes : Nat → AttemptOutcome) (e0 e1 e2 : Str)
    (h0 : outcomes 0 = .crewFail e0) (h1 : outcomes 1 = .crewFail e1)
    (h2 : outcomes 2 = .crewFail e2) :
    (queuedRun id filename rawQuery content path now outcomes).docs.length = 3
    ∧ (queuedRun id filename rawQuery content path now outcomes).countdowns = [30, 60]
    ∧ (queuedRun id filename rawQuery content path now outcomes).commits.getLast?
        = some { id := id, filename := filename, query := strip (defaultedQuery rawQuery), status := AnalysisStatus.failed, result := none, error := some e2, completed_at := none } := by
  rw [queuedRun_allfail_eq id filename rawQuery path content now outcomes e0 e1 e2 h0 h1 h2]
  exact ⟨rfl, rfl, rfl⟩

/-- C4 witness: the retry bound on a concrete all-failing queued
execution. -/
theorem C4_retry_bound_witness :
    ((fun _ : Nat => AttemptOutcome.crewFail (String.toList "boom")) 0
        = AttemptOutcome.crewFail (String.toList "boom"))
    ∧ allFailRun.docs.length = 3
    ∧ allFailRun.countdowns = [30, 60] :=
  ⟨rfl,
   (C4_retry_bound (String.toList "id") (String.toList "f.pdf") []
     (String.toList "data/f.pdf") (FileContent.pdf [String.toList "x"]) 0
     (fun _ => AttemptOutcome.crewFail (String.toList "boom"))
     (String.toList "boom") (String.toList "boom") (String.toList "boom") rfl rfl rfl).1,
   (C4_retry_bound (String.toList "id") (String.toList "f.pdf") []
     (String.toList "data/f.pdf") (FileContent.pdf [String.toList "x"]) 0
     (fun _ => AttemptOutcome.crewFail (String.toList "boom"))
     (String.toList "boom") (String.toList "boom") (String.toList "boom") rfl rfl rfl).2.1⟩

theorem runAttempt_file_removed (content : FileContent) (path : Str) (now : Nat)
    (o : AttemptOutcome) (st : WorkerState) :
    (runAttempt content path now o st).2.fileOnDisk = false := by
  cases o <;> rfl

theorem runAttempt_docText (content : FileContent) (path : Str) (now : Nat)
    (o : AttemptOutcome) (st : WorkerState) :
    (runAttempt content path now o st).1.docText
      = extract_pdf_text (if st.fileOnDisk then some content else none) path := by
  cases o <;> rfl

theorem queuedGo_docs_notFound (content : FileContent) (path : Str) (now : Nat)
    (outcomes : Nat → AttemptOutcome) :
    ∀ (fuel k : Nat) (st : WorkerState), st.fileOnDisk = false →
      ∀ d ∈ (queuedGo content path now outcomes fuel k st).docs, d = notFoundMsg path := by
  intro fuel
  induction fuel with
  | zero => intro k st hst d hd; simp [queuedGo] at hd
  | succ n ih =>
    intro k st hst d hd
    have hdoc : (runAttempt content path now (outcomes k) st).1.docText
        = notFoundMsg path := by
      rw [runAttempt_docText, hst]
      rfl
    simp only [queuedGo] at hd
    split at hd
    · simp only [List.mem_singleton] at hd
      rw [hd, hdoc]
    · split at hd
      · simp only [List.mem_cons] at hd
        rcases hd with rfl | hd
        · exact hdoc
        · exact ih (k + 1) _ (runAttempt_file_removed content path now (outcomes k) st) d hd
      · simp only [List.mem_singleton] at hd
        rw [hd, hdoc]

theorem queuedGo_file_removed (content : FileContent) (path : Str) (now : Nat)
    (outcomes : Nat → AttemptOutcome) :
    ∀ (fuel k : Nat) (st : WorkerState),
      (queuedGo content path now outcomes (fuel + 1) k st).fileOnDisk = false := by
  intro fuel
  induction fuel with
  | zero =>
    intro k st
    simp only [queuedGo]
    split
    · exact runAttempt_file_removed content path now (outcomes k) st
    · split
      · simp only [queuedGo]
        exact runAttempt_file_removed content path now (outcomes k) st
      · exact runAttempt_file_removed content path now (outcomes k) st
  | succ n ih =>
    intro k st
    simp only [queuedGo]
    split
    · exact runAttempt_file_removed content path now (outcomes k) st
    · split
      · exact ih (k + 1) _
      · exact runAttempt_file_removed content path now (outcomes k) st

/-- C5 (confirmed): the finally block of analyze_document_task removes the
temporary source file at the end of every attempt, including attempts
that schedule a retry; consequently every attempt after the first runs
with the file absent and its extraction step returns the file-not-found
message instead of document content. -/
theorem C5_temp_file_lifecycle (id filename rawQuery path : Str) (content : FileContent)
    (now : Nat) (outcomes : Nat → AttemptOutcome) :
    (∀ (o : AttemptOutcome) (st : WorkerState),
        (runAttempt content path now o st).2.fileOnDisk = false)
    ∧ (queuedRun id filename rawQuery content path now outcomes).fileOnDisk = false
    ∧ (∀ i d, 1 ≤ i →
        (queuedRun id filename rawQuery content path now outcomes).docs[i]? = some d →
        d = notFoundMsg path) := by
  refine ⟨fun o st => runAttempt_file_removed content path now o st, ?_, ?_⟩
  · exact queuedGo_file_removed content path now outcomes maxRetries 0 _
  · intro i d hi hd
    simp only [queuedRun] at hd
    simp only [queuedGo] at hd
    split at hd
    · rcases i with _ | j
      · omega
      · simp at hd
    · split at hd
      · rcases i with _ | j
        · omega
        · simp only [List.getElem?_cons_succ] at hd
          exact queuedGo_docs_notFound content path now outcomes maxRetries (0 + 1) _
            (runAttempt_file_removed content path now (outcomes 0) _) d
            (List.getElem?_mem hd)
      · rcases i with _ | j
        · omega
        · simp at hd

/-- C5 witness: in a concrete queued execution whose first attempt fails,
the second attempt extraction returns the file-not-found message. -/
theorem C5_temp_file_lifecycle_witness :
    (1 : Nat) ≤ 1
    ∧ retrySuccessRun.docs[1]? = some (notFoundMsg (String.toList "data/f.pdf"))
    ∧ notFoundMsg (String.toList "data/f.pdf")
        = notFoundMsg (String.toList "data/f.pdf") :=
  ⟨le_refl 1, by decide,
   (C5_temp_file_lifecycle (String.toList "id") (String.toList "f.pdf") []
     (String.toList "data/f.pdf") (FileContent.pdf [String.toList "x"]) 0
     (fun k => if k = 0 then AttemptOutcome.crewFail (String.toList "x")
               else AttemptOutcome.success (String.toList "report"))).2.2 1
     (notFoundMsg (String.toList "data/f.pdf")) (le_refl 1) (by decide)⟩

/-- C3, counterexample to the claim as stated: extraction from a missing
path returns the file-not-found message as an ordinary value rather than
failing; the queued attempt that observes it still runs the pipeline and
the job can even reach COMPLETED, so a missing file is neither a hard
failure nor surfaced to the caller. -/
theorem C3_counterexample :
    extract_pdf_text none (String.toList "data/f.pdf")
        = notFoundMsg (String.toList "data/f.pdf")
    ∧ retrySuccessRun.docs = [extract_pdf_text
        (some (FileContent.pdf [String.toList "x"])) (String.toList "data/f.pdf"),
        notFoundMsg (String.toList "data/f.pdf")]
    ∧ (retrySuccessRun.commits.map AnalysisResult.status).getLast?
        = some AnalysisStatus.completed :=
  ⟨rfl, by decide, by decide⟩

/-- C3 (amended): when the path does not exist the extractor returns the
file-not-found error string as an ordinary value (no failure is raised);
whitespace-only extraction returns the sentinel message; the two strings
always differ, so callers could distinguish them by content, but both are
plain return values. -/
theorem C3_extract_outcomes (path : Str) (pages : List Str)
    (h : (strip ((pages.map (fun p => collapseBlank p ++ [nl])).flatten)).isEmpty = true) :
    extract_pdf_text none path = notFoundMsg path
    ∧ extract_pdf_text (some (FileContent.pdf pages)) path = emptySentinel
    ∧ notFoundMsg path ≠ emptySentinel := by
  refine ⟨rfl, ?_, ?_⟩
  · simp [extract_pdf_text, h]
  · intro heq
    have h1 : (notFoundMsg path).head? = some 'E' := rfl
    rw [heq] at h1
    exact absurd h1 (by decide)

/-- C3 witness: the amended statement on a whitespace-only single-page
document. -/
theorem C3_extract_outcomes_witness :
    (strip ((([[' ']] : List Str).map (fun p => collapseBlank p ++ [nl])).flatten)).isEmpty
        = true
    ∧ extract_pdf_text (some (FileContent.pdf [[' ']])) (String.toList "p")
        = emptySentinel :=
  ⟨by decide, (C3_extract_outcomes (String.toList "p") [[' ']] (by decide)).2.1⟩

/-- C6, counterexample to the claim as stated: on the immediate path the
record is committed before the blank-query substitution, so a blank query
is stored verbatim in the row rather than as the fallback string. -/
theorem C6_counterexample :
    isBlankQuery [' '] = true
    ∧ ((immediateTrace (String.toList "id") (String.toList "f.pdf") [' '] true
        (CrewOutcome.ok (String.toList "resp")) true [] 0).map AnalysisResult.query).head?
        = some [' ']
    ∧ ([' '] : Str) ≠ fallbackQuery :=
  ⟨by decide, by decide, by decide⟩

/-- C6 (amended): for a blank query both paths run the pipeline with the
fallback string, and the queued-path row stores the fallback, but the
immediate-path row stores the original blank query. -/
theorem C6_blank_query_default (id filename rawQuery : Str)
    (h : isBlankQuery rawQuery = true) :
    immediatePipelineQuery rawQuery = fallbackQuery
    ∧ queuedTaskQuery rawQuery = fallbackQuery
    ∧ (newQueuedRecord id filename rawQuery).query = fallbackQuery
    ∧ (newImmediateRecord id filename rawQuery).query = rawQuery := by
  have hf : strip fallbackQuery = fallbackQuery := by decide
  refine ⟨?_, ?_, ?_, rfl⟩ <;>
    simp [immediatePipelineQuery, queuedTaskQuery, newQueuedRecord, defaultedQuery, h, hf]

/-- C6 witness: the amended statement on the empty query. -/
theorem C6_blank_query_default_witness :
    isBlankQuery [] = true ∧ immediatePipelineQuery [] = fallbackQuery :=
  ⟨by decide, (C6_blank_query_default [] [] [] (by decide)).1⟩

/-- C7, counterexample to the claim as stated: on identical inputs the two
artifact writers produce different bytes (the separator line written by
the worker contains a space). -/
theorem C7_counterexample :
    save_analysis_output_content (String.toList "id") (String.toList "f.pdf")
        (String.toList "q") (String.toList "body") (String.toList "TS")
      ≠ worker_output_content (String.toList "id") (String.toList "f.pdf")
        (String.toList "q") (String.toList "body") (String.toList "TS") := by
  decide

/-- C7 (amended): on the same job id, source name, query, result and
timestamp both artifact writers derive the same path and write the same
header followed by the result body, but the separator line between them
differs (empty on the immediate path, a single space on the queued path),
so the file contents are never byte-identical. -/
theorem C7_artifact_writers (analysis_id filename query result ts : Str) :
    save_analysis_output_path analysis_id filename
        = worker_output_path analysis_id filename
    ∧ (∃ header : Str,
        save_analysis_output_content analysis_id filename query result ts
            = header ++ [nl, nl] ++ result
        ∧ worker_output_content analysis_id filename query result ts
            = header ++ [nl, ' ', nl] ++ result)
    ∧ save_analysis_output_content analysis_id filename query result ts
        ≠ worker_output_content analysis_id filename query result ts := by
  refine ⟨rfl,
    ⟨String.toList "Financial Document Analysis Report" ++ [nl]
      ++ String.toList "Analysis ID : " ++ analysis_id ++ [nl]
      ++ String.toList "Source File : " ++ filename ++ [nl]
      ++ String.toList "Query       : " ++ query ++ [nl]
      ++ String.toList "Generated   : " ++ ts ++ [nl], ?_, ?_⟩, ?_⟩
  · simp [save_analysis_output_content, List.append_assoc]
  · simp [worker_output_content, List.append_assoc]
  · intro heq
    have hlen := congrArg List.length heq
    simp only [save_analysis_output_content, worker_output_content, List.length_append,
      List.length_cons, List.length_nil] at hlen
    omega

/-- C8, counterexample to the claim as stated: a two-page document whose
first page ends with two newlines yields a returned text containing a run
of three consecutive newlines (the page-joining newline is appended after
the per-page collapse). -/
theorem C8_counterexample :
    containsSub [nl, nl, nl]
      (extract_pdf_text (some (FileContent.pdf [['a', nl, nl], ['b']]))
        (String.toList "p")) = true := by
  decide

/-- C8 (amended): the collapse of three-or-more newline runs down to two
is applied to each page text individually, before the pages are
concatenated each followed by one newline; hence no page contributes a
triple-newline run, but such runs can appear at page boundaries of the
returned text. -/
theorem C8_page_collapse (pages : List Str) (path : Str) :
    (∀ p ∈ pages, hasTriple (collapseBlank p) = false)
    ∧ extract_pdf_text (some (FileContent.pdf pages)) path
        = (if (strip ((pages.map (fun q => collapseBlank q ++ [nl])).flatten)).isEmpty
           then emptySentinel
           else strip ((pages.map (fun q => collapseBlank q ++ [nl])).flatten)) :=
  ⟨fun p _ => collapseBlank_no_triple p, rfl⟩

/-- C8 witness: the per-page property on a concrete page. -/
theorem C8_page_collapse_witness :
    (['a', nl, nl] ∈ [(['a', nl, nl] : Str), ['b']])
    ∧ hasTriple (collapseBlank ['a', nl, nl]) = false :=
  ⟨by decide,
   (C8_page_collapse [['a', nl, nl], ['b']] (String.toList "p")).1 ['a', nl, nl] (by decide)⟩

theorem dedupGo_sublist (seen : List Str) (l : List Str) : (dedupGo seen l).Sublist l := by
  induction l generalizing seen with
  | nil => simp [dedupGo]
  | cons a rest ih =>
    simp only [dedupGo]
    split
    · exact (ih seen).trans (List.sublist_cons_self a rest)
    · exact List.Sublist.cons₂ a (ih (a :: seen))

theorem dedupGo_not_mem_seen (l : List Str) :
    ∀ (seen : List Str) (a : Str), a ∈ dedupGo seen l → seen.contains a = false := by
  induction l with
  | nil => intro seen a ha; simp [dedupGo] at ha
  | cons b rest ih =>
    intro seen a ha
    simp only [dedupGo] at ha
    split at ha
    · exact ih seen a ha
    · next hb =>
      rcases List.mem_cons.mp ha with rfl | ha
      · simpa using hb
      · have h2 := ih (b :: seen) a ha
        simp only [List.contains_cons, Bool.or_eq_false_iff] at h2
        exact h2.2

theorem dedupGo_nodup (l : List Str) : ∀ seen : List Str, (dedupGo seen l).Nodup := by
  induction l with
  | nil => intro seen; simp [dedupGo]
  | cons b rest ih =>
    intro seen
    simp only [dedupGo]
    split
    · exact ih seen
    · refine List.nodup_cons.mpr ⟨?_, ih (b :: seen)⟩
      intro hmem
      have h2 := dedupGo_not_mem_seen rest (b :: seen) b hmem
      simp at h2

/-- C9 (confirmed): a paragraph is reported as a key financial section
only if it matches at least one vocabulary keyword and at least one
monetary or percentage pattern; at most 10 sections are reported, each
truncated to 600 characters; the reported unique monetary and percentage
figures are capped at 20 and 15, deduplicated in first-seen order. -/
theorem C9_metric_extraction (text : Str) :
    (reported_sections text).length ≤ 10
    ∧ (∀ e ∈ reported_sections text,
        e.1.length ≤ 600
        ∧ ∃ para ∈ metricParagraphs text,
            e.1 = para.take 600 ∧ e.2 = matchedKeywords para
            ∧ matchedKeywords para ≠ []
            ∧ (moneySearch para || pctSearch para) = true)
    ∧ (unique_amounts text).length ≤ 20
    ∧ (unique_pcts text).length ≤ 15
    ∧ (dedupFirstSeen (moneyFindall text)).Sublist (moneyFindall text)
    ∧ (dedupFirstSeen (pctFindall text)).Sublist (pctFindall text)
    ∧ (unique_amounts text).Nodup
    ∧ (unique_pcts text).Nodup := by
  refine ⟨List.length_take_le _ _, ?_, List.length_take_le _ _, List.length_take_le _ _,
    dedupGo_sublist [] _, dedupGo_sublist [] _,
    ((List.take_sublist _ _).nodup (dedupGo_nodup _ [])),
    ((List.take_sublist _ _).nodup (dedupGo_nodup _ []))⟩
  intro e he
  have he2 : e ∈ metric_sections text := List.mem_of_mem_take he
  simp only [metric_sections, List.mem_filterMap] at he2
  obtain ⟨para, hpara, hf⟩ := he2
  split at hf
  · next hcond =>
    simp only [Option.some.injEq] at hf
    subst hf
    simp only [Bool.and_eq_true, Bool.not_eq_true', List.isEmpty_eq_false] at hcond
    exact ⟨List.length_take_le _ _,
      para, hpara, rfl, rfl, hcond.1, hcond.2⟩
  · simp at hf

/-- C10 (confirmed): on the single-paragraph input about litigation,
regulatory and investigation risk, the Risk Extractor places the
paragraph under the Legal & Regulatory Risk category with exactly the
indicators litigation, regulatory, investigation, in that order. -/
theorem C10_risk_scenario :
    (risk_categories.getD 2 ([], [])).1 = String.toList "Legal & Regulatory Risk"
    ∧ riskRelevant ((risk_categories.getD 2 ([], [])).2)
        (riskParagraphs
          (String.toList "We face significant litigation and regulatory investigation risk"))
      = [(String.toList "We face significant litigation and regulatory investigation risk",
          [String.toList "litigation", String.toList "regulatory",
           String.toList "investigation"])]
    ∧ ([nl] ++ String.toList "── Legal & Regulatory Risk (1 section(s)) ──")
        ∈ riskOutputLines
          (String.toList "We face significant litigation and regulatory investigation risk")
    ∧ (String.toList "  Indicators: litigation, regulatory, investigation")
        ∈ riskOutputLines
          (String.toList "We face significant litigation and regulatory investigation risk") :=
  ⟨by decide, by decide, by decide, by decide⟩

end FinDoc
